import Mathlib

/-
  Verification of the physics core of `three_body_sim.py` (three-body
  gravitational simulation).

  The embedding models the physics-relevant state and operations of the
  simulation engine: `Body` kinematic/diagnostic state, `PhysicsSettings`,
  the `AdvancedThreeBodySimulation` driver state, the softened pairwise
  force law, the RK4 and leapfrog integrators, the adaptive timestep
  controller, the conserved-quantity sampler, and `step`/`reset`.

  Machine floats are modelled as exact real numbers.  The source guards
  every division structurally through the softening term whenever the
  softening parameter is positive; only at zero softening with exactly
  coincident positions does the source divide by zero, where this
  real-number model totalizes via the Lean convention `x / 0 = 0`.  No
  result below leans on that totalized value: the symbolic theorems hold
  uniformly (in particular over the guarded positive-softening domain),
  and every theorem below that concretely evaluates an acceleration or a
  force does so at a positive softening parameter, so each division it
  performs has a nonzero denominator exactly as in the source.  Visual-only body state (trails, particles,
  glow, pulsation, speed history, the collision-flag decay timer) is
  owned by the excluded rendering layer and is not modelled; no claim
  refers to it.

  Python `for` loops that mutate bodies sequentially are modelled as
  simultaneous updates where the loop body of the source reads only data
  that the loop does not write (this holds for every loop modelled here:
  acceleration depends only on positions and masses, the kick loops write
  only velocities, and the drift loop writes each body's position from its
  own velocity).  The four sequential calls to `get_derivatives_rk4`
  inside `rk4_step`, each of which overwrites every body's stored
  force/acceleration, are modelled by threading the body array through
  the four evaluations, so the last write wins exactly as in the source.
  Bodies are indexed by list position; Python's identity-based exclusion
  `body != target_body` coincides with index-based exclusion because each
  list slot holds a distinct object.
-/

namespace ThreeBody

/-- Mirror of the `PhysicsSettings` dataclass. -/
structure PhysicsSettings where
  integration_method : String
  adaptive_timestep : Bool
  base_dt : ℝ
  max_dt : ℝ
  min_dt : ℝ
  collision_threshold : ℝ
  softening_parameter : ℝ
  energy_conservation_check : Bool

/-- Default field values of the `PhysicsSettings` dataclass. -/
def defaultSettings : PhysicsSettings :=
  { integration_method := "RK4"
    adaptive_timestep := true
    base_dt := 0.0005
    max_dt := 0.002
    min_dt := 0.0001
    collision_threshold := 0.05
    softening_parameter := 0.01
    energy_conservation_check := true }

/-- Physics-relevant state of the `Body` class: mass, kinematic state,
the stored force/acceleration diagnostics, the identifying name and the
collision flag.  Visual-only fields are excluded (see header comment). -/
structure Body where
  mass : ℝ
  x : ℝ
  y : ℝ
  vx : ℝ
  vy : ℝ
  name : String
  force_x : ℝ
  force_y : ℝ
  acceleration_x : ℝ
  acceleration_y : ℝ
  collision_detected : Bool

/-- Mirror of `Body.__init__`: force/acceleration start at 0.0 and the
collision flag starts false. -/
def Body.make (mass x y vx vy : ℝ) (name : String) : Body :=
  { mass := mass, x := x, y := y, vx := vx, vy := vy, name := name
    force_x := 0, force_y := 0, acceleration_x := 0, acceleration_y := 0
    collision_detected := false }

/-- One body's slot (x, y, vx, vy) of the flat RK4 state vector
`state[idx:idx+4]`. -/
structure BState where
  x : ℝ
  y : ℝ
  vx : ℝ
  vy : ℝ

/-- Physics-relevant state of `AdvancedThreeBodySimulation`. -/
structure Simulation where
  settings : PhysicsSettings
  G : ℝ
  bodies : List Body
  time : ℝ
  frame_count : ℕ
  paused : Bool
  energy_history : List ℝ
  momentum_history : List ℝ
  angular_momentum_history : List ℝ
  current_dt : ℝ
  error_tolerance : ℝ
  collision_events : List (ℝ × String × String)
  center_of_mass : ℝ × ℝ
  center_of_mass_velocity : ℝ × ℝ

/-- Result of one call to `calculate_gravitational_force`: the returned
force vector, the two (possibly flagged) bodies, and the updated
collision-event log. -/
structure ForceResult where
  force : ℝ × ℝ
  body1 : Body
  body2 : Body
  collision_events : List (ℝ × String × String)

/-- Mirror of `calculate_gravitational_force`, including its side effect
on the collision flags and the collision-event log. -/
noncomputable def Simulation.calculate_gravitational_force
    (sim : Simulation) (body1 body2 : Body) : ForceResult :=
  let dx := body2.x - body1.x
  let dy := body2.y - body1.y
  let r_squared := dx ^ 2 + dy ^ 2 + sim.settings.softening_parameter ^ 2
  let r := Real.sqrt r_squared
  let actual_distance := Real.sqrt (dx ^ 2 + dy ^ 2)
  let F_magnitude := sim.G * body1.mass * body2.mass / r_squared
  if actual_distance < sim.settings.collision_threshold then
    { force := (F_magnitude * dx / r, F_magnitude * dy / r)
      body1 := { body1 with collision_detected := true }
      body2 := { body2 with collision_detected := true }
      collision_events := sim.collision_events ++ [(sim.time, body1.name, body2.name)] }
  else
    { force := (F_magnitude * dx / r, F_magnitude * dy / r)
      body1 := body1
      body2 := body2
      collision_events := sim.collision_events }

/-- One term of the inner acceleration loop shared by
`get_derivatives_rk4` and `calculate_acceleration`: the acceleration that
a body of mass `mj` at `(xj, yj)` induces on a body at `(xi, yi)`. -/
noncomputable def accel_term (G eps mj xi yi xj yj : ℝ) : ℝ × ℝ :=
  let dx := xj - xi
  let dy := yj - yi
  let r_squared := dx ^ 2 + dy ^ 2 + eps ^ 2
  let r := Real.sqrt r_squared
  let a_magnitude := G * mj / r_squared
  (a_magnitude * dx / r, a_magnitude * dy / r)

/-- The shared O(n^2) acceleration kernel: total acceleration on body `i`
from all bodies `j ≠ i`, given mass and position arrays. -/
noncomputable def accel_sum {n : ℕ} (G eps : ℝ) (m px py : Fin n → ℝ)
    (i : Fin n) : ℝ × ℝ :=
  (∑ j in Finset.univ.erase i,
      (accel_term G eps (m j) (px i) (py i) (px j) (py j)).1,
   ∑ j in Finset.univ.erase i,
      (accel_term G eps (m j) (px i) (py i) (px j) (py j)).2)

/-- Mirror of `get_derivatives_rk4`: returns the derivative of the state
vector and the body array with its stored force/acceleration fields
overwritten by this evaluation (the source mutates `self.bodies[i]` on
every call). -/
noncomputable def get_derivatives_rk4 {n : ℕ} (G eps : ℝ)
    (bodies : Fin n → Body) (state : Fin n → BState) :
    (Fin n → BState) × (Fin n → Body) :=
  let a := fun i => accel_sum G eps (fun j => (bodies j).mass)
    (fun j => (state j).x) (fun j => (state j).y) i
  (fun i => ⟨(state i).vx, (state i).vy, (a i).1, (a i).2⟩,
   fun i =>
    { bodies i with
      force_x := (a i).1 * (bodies i).mass
      force_y := (a i).2 * (bodies i).mass
      acceleration_x := (a i).1
      acceleration_y := (a i).2 })

/-- Pointwise `state + c • k` on flat RK4 state vectors. -/
def saxpy {n : ℕ} (c : ℝ) (s k : Fin n → BState) : Fin n → BState :=
  fun i =>
    ⟨(s i).x + c * (k i).x, (s i).y + c * (k i).y,
     (s i).vx + c * (k i).vx, (s i).vy + c * (k i).vy⟩

/-- Mirror of `rk4_step`: no-op below 2 bodies, otherwise the classic
four-stage update, writing the new kinematic state into bodies whose
diagnostic fields hold the k4 (last) derivative evaluation's values. -/
noncomputable def Simulation.rk4_step (sim : Simulation) (dt : ℝ) : Simulation :=
  if sim.bodies.length < 2 then sim
  else
    let bodies0 : Fin sim.bodies.length → Body := fun i => sim.bodies.get i
    let state : Fin sim.bodies.length → BState := fun i =>
      ⟨(bodies0 i).x, (bodies0 i).y, (bodies0 i).vx, (bodies0 i).vy⟩
    let d1 := get_derivatives_rk4 sim.G sim.settings.softening_parameter bodies0 state
    let k1 := d1.1
    let d2 := get_derivatives_rk4 sim.G sim.settings.softening_parameter d1.2
      (saxpy (0.5 * dt) state k1)
    let k2 := d2.1
    let d3 := get_derivatives_rk4 sim.G sim.settings.softening_parameter d2.2
      (saxpy (0.5 * dt) state k2)
    let k3 := d3.1
    let d4 := get_derivatives_rk4 sim.G sim.settings.softening_parameter d3.2
      (saxpy dt state k3)
    let k4 := d4.1
    let new_bodies := List.ofFn (fun i =>
      { d4.2 i with
        x := (state i).x + dt / 6 * ((k1 i).x + 2 * (k2 i).x + 2 * (k3 i).x + (k4 i).x)
        y := (state i).y + dt / 6 * ((k1 i).y + 2 * (k2 i).y + 2 * (k3 i).y + (k4 i).y)
        vx := (state i).vx + dt / 6 * ((k1 i).vx + 2 * (k2 i).vx + 2 * (k3 i).vx + (k4 i).vx)
        vy := (state i).vy + dt / 6 * ((k1 i).vy + 2 * (k2 i).vy + 2 * (k3 i).vy + (k4 i).vy) })
    { sim with bodies := new_bodies }

/-- Mirror of `calculate_acceleration`: total acceleration on the body in
slot `i`, read off the live body array. -/
noncomputable def calculate_acceleration {n : ℕ} (G eps : ℝ)
    (bodies : Fin n → Body) (i : Fin n) : ℝ × ℝ :=
  accel_sum G eps (fun j => (bodies j).mass) (fun j => (bodies j).x)
    (fun j => (bodies j).y) i

/-- Mirror of `leapfrog_step`: kick-drift-kick; only x, y, vx, vy are
written, the stored force/acceleration diagnostics are untouched. -/
noncomputable def Simulation.leapfrog_step (sim : Simulation) (dt : ℝ) : Simulation :=
  if sim.bodies.length < 2 then sim
  else
    let bodies0 : Fin sim.bodies.length → Body := fun i => sim.bodies.get i
    let kick1 := fun i =>
      let a := calculate_acceleration sim.G sim.settings.softening_parameter bodies0 i
      { bodies0 i with
        vx := (bodies0 i).vx + 0.5 * dt * a.1
        vy := (bodies0 i).vy + 0.5 * dt * a.2 }
    let drift := fun i =>
      { kick1 i with
        x := (kick1 i).x + dt * (kick1 i).vx
        y := (kick1 i).y + dt * (kick1 i).vy }
    let kick2 := fun i =>
      let a := calculate_acceleration sim.G sim.settings.softening_parameter drift i
      { drift i with
        vx := (drift i).vx + 0.5 * dt * a.1
        vy := (drift i).vy + 0.5 * dt * a.2 }
    { sim with bodies := List.ofFn kick2 }

/-- Magnitude of a body's stored acceleration, as read by
`adaptive_timestep_control`. -/
noncomputable def Body.acceleration_magnitude (b : Body) : ℝ :=
  Real.sqrt (b.acceleration_x ^ 2 + b.acceleration_y ^ 2)

/-- The `max_acceleration` accumulation loop of `adaptive_timestep_control`. -/
noncomputable def Simulation.max_acceleration (sim : Simulation) : ℝ :=
  sim.bodies.foldl (fun acc b => max acc b.acceleration_magnitude) 0

/-- Mirror of `adaptive_timestep_control`; `np.clip(x, lo, hi)` is
`min (max x lo) hi`. -/
noncomputable def Simulation.adaptive_timestep_control (sim : Simulation) : Simulation :=
  if sim.settings.adaptive_timestep = true then
    if 0 < sim.max_acceleration then
      let optimal_dt := Real.sqrt (sim.error_tolerance / sim.max_acceleration)
      { sim with current_dt := min (max optimal_dt sim.settings.min_dt) sim.settings.max_dt }
    else sim
  else sim

/-- Mirror of `calculate_conserved_quantities`: no-op below 2 bodies,
otherwise appends the three samples and evicts the oldest entry of each
history once the energy history exceeds 1000 entries. -/
noncomputable def Simulation.calculate_conserved_quantities (sim : Simulation) : Simulation :=
  if sim.bodies.length < 2 then sim
  else
    let kinetic_energy := (sim.bodies.map (fun b => 0.5 * b.mass * (b.vx ^ 2 + b.vy ^ 2))).sum
    let pe_pair := fun (p : Fin sim.bodies.length × Fin sim.bodies.length) =>
      let bi := sim.bodies.get p.1
      let bj := sim.bodies.get p.2
      let r := Real.sqrt ((bj.x - bi.x) ^ 2 + (bj.y - bi.y) ^ 2)
      if sim.settings.softening_parameter < r then -(sim.G * bi.mass * bj.mass / r) else 0
    let potential_energy :=
      ∑ p in Finset.filter (fun p => p.1 < p.2) Finset.univ, pe_pair p
    let total_energy := kinetic_energy + potential_energy
    let px := (sim.bodies.map (fun b => b.mass * b.vx)).sum
    let py := (sim.bodies.map (fun b => b.mass * b.vy)).sum
    let total_angular_momentum :=
      (sim.bodies.map (fun b => b.x * b.mass * b.vy - b.y * b.mass * b.vx)).sum
    let eh := sim.energy_history ++ [total_energy]
    let mh := sim.momentum_history ++ [Real.sqrt (px ^ 2 + py ^ 2)]
    let ah := sim.angular_momentum_history ++ [|total_angular_momentum|]
    if 1000 < eh.length then
      { sim with
        energy_history := eh.tail
        momentum_history := mh.tail
        angular_momentum_history := ah.tail }
    else
      { sim with
        energy_history := eh
        momentum_history := mh
        angular_momentum_history := ah }

/-- Mirror of `update_center_of_mass`. -/
noncomputable def Simulation.update_center_of_mass (sim : Simulation) : Simulation :=
  if sim.bodies.isEmpty = true then sim
  else
    let total_mass := (sim.bodies.map Body.mass).sum
    let com_x := (sim.bodies.map (fun b => b.mass * b.x)).sum / total_mass
    let com_y := (sim.bodies.map (fun b => b.mass * b.y)).sum / total_mass
    let com_vx := (sim.bodies.map (fun b => b.mass * b.vx)).sum / total_mass
    let com_vy := (sim.bodies.map (fun b => b.mass * b.vy)).sum / total_mass
    { sim with
      center_of_mass := (com_x, com_y)
      center_of_mass_velocity := (com_vx, com_vy) }

/-- Mirror of `step`, restricted to the physics core (the visual-effect
updates of the source are excluded, see header comment). -/
noncomputable def Simulation.step (sim : Simulation) : Simulation :=
  if sim.paused = true then sim
  else
    let sim1 :=
      if sim.settings.integration_method = "RK4" then sim.rk4_step sim.current_dt
      else if sim.settings.integration_method = "Leapfrog" then
        sim.leapfrog_step sim.current_dt
      else sim.rk4_step sim.current_dt
    let sim2 := sim1.update_center_of_mass
    let sim3 := sim2.adaptive_timestep_control
    let sim4 := if sim3.frame_count % 10 = 0 then sim3.calculate_conserved_quantities else sim3
    { sim4 with time := sim4.time + sim4.current_dt, frame_count := sim4.frame_count + 1 }

/-- Mirror of `reset`: clears clock, step counter, dt, histories,
collision log and per-body collision flags; body kinematics are left
as they are. -/
def Simulation.reset (sim : Simulation) : Simulation :=
  { sim with
    time := 0
    frame_count := 0
    current_dt := sim.settings.base_dt
    energy_history := []
    momentum_history := []
    angular_momentum_history := []
    collision_events := []
    bodies := sim.bodies.map (fun b => { b with collision_detected := false }) }

/-- Total momentum vector of the system, `sum of mass * velocity`. -/
def Simulation.total_momentum (sim : Simulation) : ℝ × ℝ :=
  ((sim.bodies.map (fun b => b.mass * b.vx)).sum,
   (sim.bodies.map (fun b => b.mass * b.vy)).sum)

/-- The simulation with its configured integration-method string replaced. -/
def Simulation.with_method (sim : Simulation) (s : String) : Simulation :=
  { sim with settings := { sim.settings with integration_method := s } }

/-- Mirror of `AdvancedThreeBodySimulation.__init__`, with the body list
installed directly (the source's `add_body` additionally recomputes the
center of mass, which no claim below depends on). -/
def Simulation.make (settings : PhysicsSettings) (G : ℝ) (bodies : List Body) : Simulation :=
  { settings := settings
    G := G
    bodies := bodies
    time := 0
    frame_count := 0
    paused := false
    energy_history := []
    momentum_history := []
    angular_momentum_history := []
    current_dt := settings.base_dt
    error_tolerance := 1e-8
    collision_events := []
    center_of_mass := (0, 0)
    center_of_mass_velocity := (0, 0) }

/-- Unit-mass body at the origin, at rest. -/
def bodyA : Body := Body.make 1 0 0 0 0 "Alpha"

/-- Unit-mass body at (1, 0), at rest. -/
def bodyB : Body := Body.make 1 1 0 0 0 "Beta"

/-- Unit-mass body coincident with `bodyA`. -/
def bodyC : Body := Body.make 1 0 0 0 0 "Gamma"

/-- Default settings with the softening parameter set to zero, which the
data model permits. -/
def zeroSoftSettings : PhysicsSettings := { defaultSettings with softening_parameter := 0 }

/-- Concrete two-body configuration with zero softening. -/
def twoBodySim : Simulation := Simulation.make zeroSoftSettings 1 [bodyA, bodyB]

/-- Default settings with the softening parameter set to 3, so that a
pair at separation 4 has softened r^2 = 25 and even coincident positions
keep r^2 = 9 > 0: every division stays guarded, and all intermediate
values of the traced RK4 step are exact dyadics in machine floats. -/
def softSettings : PhysicsSettings := { defaultSettings with softening_parameter := 3 }

/-- Unit-mass body at the origin, at rest. -/
def bodyD : Body := Body.make 1 0 0 0 0 "Delta"

/-- Unit-mass body at (4, 0), at rest. -/
def bodyE : Body := Body.make 1 4 0 0 0 "Epsilon"

/-- Two unit masses at separation 4 with softening 3 and G = 31.25
(= 125/4, an exact dyadic), so the k1 accelerations are exactly
(1, -1). -/
def sepSim : Simulation := Simulation.make softSettings 31.25 [bodyD, bodyE]

/-- Concrete body-free simulation with default settings. -/
def idleSim : Simulation := Simulation.make defaultSettings 1 []

/-- Single body carrying a huge stored acceleration, driving the adaptive
controller to clamp the proposed timestep at `min_dt`. -/
def soloBody : Body := { Body.make 1 0 0 0 0 "Solo" with acceleration_x := 100000000 }

/-- Simulation holding only `soloBody`, one frame in. -/
def soloSim : Simulation := { Simulation.make defaultSettings 1 [soloBody] with frame_count := 1 }

/-- Body-free, non-paused simulation whose collision log already holds
1001 entries. -/
def overfullLogSim : Simulation :=
  { Simulation.make { defaultSettings with adaptive_timestep := false } 1 [] with
    frame_count := 1
    collision_events := List.replicate 1001 ((0 : ℝ), "A", "B") }

/-- Simulation configured with the unrecognized method string "Euler". -/
def eulerSim : Simulation :=
  Simulation.make { defaultSettings with integration_method := "Euler" } 1 []

/-- Two-body simulation configured with the Leapfrog integrator. -/
def leapSim : Simulation :=
  Simulation.make { defaultSettings with integration_method := "Leapfrog" } 1 [bodyA, bodyB]

/-- The state at which `rk4_step` makes its fourth (k4) derivative
evaluation: `state + dt * k3`, rebuilt from the same three preceding
stages over a given body array. -/
noncomputable def rk4_stage4 {n : ℕ} (G eps dt : ℝ) (bodies : Fin n → Body) :
    Fin n → BState :=
  let state : Fin n → BState := fun i =>
    ⟨(bodies i).x, (bodies i).y, (bodies i).vx, (bodies i).vy⟩
  let d1 := get_derivatives_rk4 G eps bodies state
  let d2 := get_derivatives_rk4 G eps d1.2 (saxpy (0.5 * dt) state d1.1)
  let d3 := get_derivatives_rk4 G eps d2.2 (saxpy (0.5 * dt) state d2.1)
  saxpy dt state d3.1

lemma weighted_accel_term_antisymm_x (G eps mi mj xi yi xj yj : ℝ) :
    mi * (accel_term G eps mj xi yi xj yj).1 = -(mj * (accel_term G eps mi xj yj xi yi).1) := by
  simp only [accel_term]
  rw [show ((xi - xj) ^ 2 + (yi - yj) ^ 2 + eps ^ 2 : ℝ)
      = (xj - xi) ^ 2 + (yj - yi) ^ 2 + eps ^ 2 from by ring]
  ring

lemma weighted_accel_term_antisymm_y (G eps mi mj xi yi xj yj : ℝ) :
    mi * (accel_term G eps mj xi yi xj yj).2 = -(mj * (accel_term G eps mi xj yj xi yi).2) := by
  simp only [accel_term]
  rw [show ((xi - xj) ^ 2 + (yi - yj) ^ 2 + eps ^ 2 : ℝ)
      = (xj - xi) ^ 2 + (yj - yi) ^ 2 + eps ^ 2 from by ring]
  ring

lemma sum_pairs_antisymm_zero {n : ℕ} (F : Fin n → Fin n → ℝ)
    (hF : ∀ i j, F i j = -(F j i)) :
    ∑ i, ∑ j in Finset.univ.erase i, F i j = 0 := by
  have step1 : ∀ i : Fin n,
      ∑ j in Finset.univ.erase i, F i j = ∑ j, if i ≠ j then F i j else 0 := by
    intro i
    rw [← Finset.filter_ne Finset.univ i, Finset.sum_filter]
  rw [Finset.sum_congr rfl (fun i _ => step1 i), ← Finset.sum_product']
  rw [show (∑ x in Finset.univ ×ˢ Finset.univ, if x.1 ≠ x.2 then F x.1 x.2 else 0)
      = ∑ x in (Finset.univ ×ˢ Finset.univ).filter (fun p : Fin n × Fin n => p.1 ≠ p.2),
        F x.1 x.2 from (Finset.sum_filter _ _).symm]
  refine Finset.sum_involution (fun p _ => (p.2, p.1)) ?_ ?_ ?_ ?_
  · intro p _
    rw [hF p.1 p.2]
    ring
  · intro p hp _
    have hne : p.1 ≠ p.2 := (Finset.mem_filter.mp hp).2
    intro hcontra
    have h1 : p.2 = p.1 := congrArg Prod.fst hcontra
    exact hne h1.symm
  · intro p hp
    have hne : p.1 ≠ p.2 := (Finset.mem_filter.mp hp).2
    exact Finset.mem_filter.mpr ⟨Finset.mem_product.mpr ⟨Finset.mem_univ _, Finset.mem_univ _⟩,
      fun h => hne h.symm⟩
  · intro p _
    rfl

lemma sum_mass_accel_x {n : ℕ} (G eps : ℝ) (m px py : Fin n → ℝ) :
    ∑ i, m i * (accel_sum G eps m px py i).1 = 0 := by
  have expand : ∀ i : Fin n, m i * (accel_sum G eps m px py i).1 =
      ∑ j in Finset.univ.erase i,
        m i * (accel_term G eps (m j) (px i) (py i) (px j) (py j)).1 := by
    intro i
    simp only [accel_sum]
    exact Finset.mul_sum _ _ _
  rw [Finset.sum_congr rfl (fun i _ => expand i)]
  exact sum_pairs_antisymm_zero _ (fun i j => weighted_accel_term_antisymm_x G eps _ _ _ _ _ _)

lemma sum_mass_accel_y {n : ℕ} (G eps : ℝ) (m px py : Fin n → ℝ) :
    ∑ i, m i * (accel_sum G eps m px py i).2 = 0 := by
  have expand : ∀ i : Fin n, m i * (accel_sum G eps m px py i).2 =
      ∑ j in Finset.univ.erase i,
        m i * (accel_term G eps (m j) (px i) (py i) (px j) (py j)).2 := by
    intro i
    simp only [accel_sum]
    exact Finset.mul_sum _ _ _
  rw [Finset.sum_congr rfl (fun i _ => expand i)]
  exact sum_pairs_antisymm_zero _ (fun i j => weighted_accel_term_antisymm_y G eps _ _ _ _ _ _)

/-- C4: `calculate_gravitational_force` obeys Newton's third law exactly:
swapping the two bodies negates both returned force components, for all
positive masses and all positions. -/
theorem calculate_gravitational_force_antisymm (sim : Simulation) (A B : Body)
    (hA : 0 < A.mass) (hB : 0 < B.mass) :
    (sim.calculate_gravitational_force A B).force.1 =
      -((sim.calculate_gravitational_force B A).force.1) ∧
    (sim.calculate_gravitational_force A B).force.2 =
      -((sim.calculate_gravitational_force B A).force.2) := by
  simp only [Simulation.calculate_gravitational_force, apply_ite ForceResult.force, ite_self]
  constructor
  · rw [show ((A.x - B.x) ^ 2 + (A.y - B.y) ^ 2 + sim.settings.softening_parameter ^ 2 : ℝ)
        = (B.x - A.x) ^ 2 + (B.y - A.y) ^ 2 + sim.settings.softening_parameter ^ 2 from by ring]
    ring
  · rw [show ((A.x - B.x) ^ 2 + (A.y - B.y) ^ 2 + sim.settings.softening_parameter ^ 2 : ℝ)
        = (B.x - A.x) ^ 2 + (B.y - A.y) ^ 2 + sim.settings.softening_parameter ^ 2 from by ring]
    ring

/-- Witness for C4 at concrete bodies of mass 1. -/
theorem calculate_gravitational_force_antisymm_witness :
    (idleSim.calculate_gravitational_force bodyA bodyB).force.1 =
      -((idleSim.calculate_gravitational_force bodyB bodyA).force.1) ∧
    (idleSim.calculate_gravitational_force bodyA bodyB).force.2 =
      -((idleSim.calculate_gravitational_force bodyB bodyA).force.2) :=
  calculate_gravitational_force_antisymm idleSim bodyA bodyB
    (by norm_num [bodyA, Body.make]) (by norm_num [bodyB, Body.make])

/-- C6: a call to `calculate_gravitational_force` on a pair whose
unsoftened separation is strictly below the collision threshold sets both
collision flags and appends exactly one event (time, name1, name2) to the
log; at or above the threshold it leaves the bodies and the log unchanged. -/
theorem collision_flagging (sim : Simulation) (b1 b2 : Body) :
    (Real.sqrt ((b2.x - b1.x) ^ 2 + (b2.y - b1.y) ^ 2) < sim.settings.collision_threshold →
      ((sim.calculate_gravitational_force b1 b2).body1.collision_detected = true ∧
       (sim.calculate_gravitational_force b1 b2).body2.collision_detected = true ∧
       (sim.calculate_gravitational_force b1 b2).collision_events =
         sim.collision_events ++ [(sim.time, b1.name, b2.name)])) ∧
    (sim.settings.collision_threshold ≤ Real.sqrt ((b2.x - b1.x) ^ 2 + (b2.y - b1.y) ^ 2) →
      ((sim.calculate_gravitational_force b1 b2).body1 = b1 ∧
       (sim.calculate_gravitational_force b1 b2).body2 = b2 ∧
       (sim.calculate_gravitational_force b1 b2).collision_events = sim.collision_events)) := by
  constructor
  · intro h
    simp only [Simulation.calculate_gravitational_force]
    rw [if_pos h]
    exact ⟨rfl, rfl, rfl⟩
  · intro h
    simp only [Simulation.calculate_gravitational_force]
    rw [if_neg (not_lt.mpr h)]
    exact ⟨rfl, rfl, rfl⟩

/-- Witness for C6: two coincident bodies are closer than the default
threshold, so both flags are set and one event is logged. -/
theorem collision_flagging_witness :
    (idleSim.calculate_gravitational_force bodyA bodyC).body1.collision_detected = true ∧
    (idleSim.calculate_gravitational_force bodyA bodyC).body2.collision_detected = true ∧
    (idleSim.calculate_gravitational_force bodyA bodyC).collision_events =
      idleSim.collision_events ++ [(idleSim.time, bodyA.name, bodyC.name)] :=
  (collision_flagging idleSim bodyA bodyC).1 (by
    norm_num [bodyA, bodyC, Body.make, idleSim, Simulation.make, defaultSettings, Real.sqrt_zero])

/-- C7: `reset` zeroes the clock, step counter, dt, histories, collision
log and collision flags, while leaving every body's mass, position and
velocity exactly as they were before the call. -/
theorem reset_state (sim : Simulation) :
    (sim.reset).time = 0 ∧
    (sim.reset).frame_count = 0 ∧
    (sim.reset).current_dt = sim.settings.base_dt ∧
    (sim.reset).energy_history = [] ∧
    (sim.reset).momentum_history = [] ∧
    (sim.reset).angular_momentum_history = [] ∧
    (sim.reset).collision_events = [] ∧
    (sim.reset).bodies.map Body.mass = sim.bodies.map Body.mass ∧
    (sim.reset).bodies.map Body.x = sim.bodies.map Body.x ∧
    (sim.reset).bodies.map Body.y = sim.bodies.map Body.y ∧
    (sim.reset).bodies.map Body.vx = sim.bodies.map Body.vx ∧
    (sim.reset).bodies.map Body.vy = sim.bodies.map Body.vy ∧
    (sim.reset).bodies.map Body.collision_detected = sim.bodies.map (fun _ => false) := by
  refine ⟨rfl, rfl, rfl, rfl, rfl, rfl, rfl, ?_, ?_, ?_, ?_, ?_, ?_⟩ <;>
  · simp only [Simulation.reset, List.map_map]
    rfl

/-- C5: with the adaptive flag enabled and a sane dt interval, the
controller sets `current_dt` to `sqrt(error_tolerance / max_acceleration)`
clamped to `[min_dt, max_dt]` whenever the maximum stored acceleration
magnitude is nonzero (so the assigned dt never leaves the interval), and
leaves `current_dt` unchanged when that maximum is exactly zero. -/
theorem adaptive_timestep_spec (sim : Simulation)
    (hA : sim.settings.adaptive_timestep = true)
    (hb : sim.settings.min_dt ≤ sim.settings.max_dt) :
    (0 < sim.max_acceleration →
      ((sim.adaptive_timestep_control).current_dt =
        min (max (Real.sqrt (sim.error_tolerance / sim.max_acceleration)) sim.settings.min_dt)
          sim.settings.max_dt ∧
       sim.settings.min_dt ≤ (sim.adaptive_timestep_control).current_dt ∧
       (sim.adaptive_timestep_control).current_dt ≤ sim.settings.max_dt)) ∧
    (sim.max_acceleration = 0 → (sim.adaptive_timestep_control).current_dt = sim.current_dt) := by
  constructor
  · intro h
    have hdt : (sim.adaptive_timestep_control).current_dt =
        min (max (Real.sqrt (sim.error_tolerance / sim.max_acceleration)) sim.settings.min_dt)
          sim.settings.max_dt := by
      simp only [Simulation.adaptive_timestep_control]
      rw [if_pos hA, if_pos h]
    refine ⟨hdt, ?_, ?_⟩
    · rw [hdt]
      exact le_min (le_max_right _ _) hb
    · rw [hdt]
      exact min_le_right _ _
  · intro h
    simp only [Simulation.adaptive_timestep_control]
    rw [if_pos hA, if_neg (by rw [h]; exact lt_irrefl 0)]

/-- Witness for C5 at a concrete body-free simulation, whose maximum
stored acceleration is zero. -/
theorem adaptive_timestep_spec_witness :
    (idleSim.adaptive_timestep_control).current_dt = idleSim.current_dt :=
  (adaptive_timestep_spec idleSim rfl
    (by norm_num [idleSim, Simulation.make, defaultSettings])).2 rfl

lemma map_sum_fin {α : Type} (l : List α) (f : α → ℝ) :
    (l.map f).sum = ∑ i : Fin l.length, f (l.get i) := by
  conv_lhs => rw [← List.ofFn_get l, List.map_ofFn, List.sum_ofFn]
  rfl

lemma sum_kick4 {n : ℕ} (m v a1 a2 a3 a4 : Fin n → ℝ) (dt : ℝ)
    (h1 : ∑ i, m i * a1 i = 0) (h2 : ∑ i, m i * a2 i = 0)
    (h3 : ∑ i, m i * a3 i = 0) (h4 : ∑ i, m i * a4 i = 0) :
    ∑ i, m i * (v i + dt / 6 * (a1 i + 2 * a2 i + 2 * a3 i + a4 i)) = ∑ i, m i * v i := by
  have expand : ∀ i : Fin n, m i * (v i + dt / 6 * (a1 i + 2 * a2 i + 2 * a3 i + a4 i))
      = m i * v i + dt / 6 * (m i * a1 i) + dt / 3 * (m i * a2 i)
        + dt / 3 * (m i * a3 i) + dt / 6 * (m i * a4 i) := fun i => by ring
  rw [Finset.sum_congr rfl (fun i _ => expand i)]
  rw [Finset.sum_add_distrib, Finset.sum_add_distrib, Finset.sum_add_distrib,
    Finset.sum_add_distrib, ← Finset.mul_sum, ← Finset.mul_sum, ← Finset.mul_sum,
    ← Finset.mul_sum, h1, h2, h3, h4]
  ring

lemma sum_kick2 {n : ℕ} (m v a1 a2 : Fin n → ℝ) (dt : ℝ)
    (h1 : ∑ i, m i * a1 i = 0) (h2 : ∑ i, m i * a2 i = 0) :
    ∑ i, m i * (v i + 0.5 * dt * a1 i + 0.5 * dt * a2 i) = ∑ i, m i * v i := by
  have expand : ∀ i : Fin n, m i * (v i + 0.5 * dt * a1 i + 0.5 * dt * a2 i)
      = m i * v i + 0.5 * dt * (m i * a1 i) + 0.5 * dt * (m i * a2 i) := fun i => by ring
  rw [Finset.sum_congr rfl (fun i _ => expand i)]
  rw [Finset.sum_add_distrib, Finset.sum_add_distrib, ← Finset.mul_sum, ← Finset.mul_sum,
    h1, h2]
  ring

lemma rk4_step_momentum (sim : Simulation) (dt : ℝ) :
    (sim.rk4_step dt).total_momentum = sim.total_momentum := by
  by_cases hlen : sim.bodies.length < 2
  · simp only [Simulation.rk4_step, if_pos hlen]
  · refine Prod.ext ?_ ?_
    all_goals
      simp only [Simulation.rk4_step, if_neg hlen, Simulation.total_momentum,
        get_derivatives_rk4, List.map_ofFn, List.sum_ofFn, Function.comp]
      rw [map_sum_fin]
    · exact sum_kick4 _ _ _ _ _ _ dt (sum_mass_accel_x _ _ _ _ _) (sum_mass_accel_x _ _ _ _ _)
        (sum_mass_accel_x _ _ _ _ _) (sum_mass_accel_x _ _ _ _ _)
    · exact sum_kick4 _ _ _ _ _ _ dt (sum_mass_accel_y _ _ _ _ _) (sum_mass_accel_y _ _ _ _ _)
        (sum_mass_accel_y _ _ _ _ _) (sum_mass_accel_y _ _ _ _ _)

lemma leapfrog_step_momentum (sim : Simulation) (dt : ℝ) :
    (sim.leapfrog_step dt).total_momentum = sim.total_momentum := by
  by_cases hlen : sim.bodies.length < 2
  · simp only [Simulation.leapfrog_step, if_pos hlen]
  · refine Prod.ext ?_ ?_
    all_goals
      simp only [Simulation.leapfrog_step, if_neg hlen, Simulation.total_momentum,
        calculate_acceleration, List.map_ofFn, List.sum_ofFn, Function.comp]
      rw [map_sum_fin]
    · exact sum_kick2 _ _ _ _ dt (sum_mass_accel_x _ _ _ _ _) (sum_mass_accel_x _ _ _ _ _)
    · exact sum_kick2 _ _ _ _ dt (sum_mass_accel_y _ _ _ _ _) (sum_mass_accel_y _ _ _ _ _)

/-- C1: both integrators conserve total momentum exactly (in real
arithmetic): one `rk4_step dt` and one `leapfrog_step dt` leave the sum
of mass times velocity unchanged in both components, for every dt, and
hence so does any number N of steps of either integrator. -/
theorem momentum_conserved (sim : Simulation) (dt : ℝ) (h : 2 ≤ sim.bodies.length) :
    (sim.rk4_step dt).total_momentum = sim.total_momentum ∧
    (sim.leapfrog_step dt).total_momentum = sim.total_momentum ∧
    (∀ N : ℕ, ((fun s : Simulation => s.rk4_step dt)^[N] sim).total_momentum =
      sim.total_momentum) ∧
    (∀ N : ℕ, ((fun s : Simulation => s.leapfrog_step dt)^[N] sim).total_momentum =
      sim.total_momentum) := by
  refine ⟨rk4_step_momentum sim dt, leapfrog_step_momentum sim dt, ?_, ?_⟩
  · intro N
    induction N with
    | zero => rfl
    | succ k ih =>
      rw [Function.iterate_succ_apply']
      exact (rk4_step_momentum _ dt).trans ih
  · intro N
    induction N with
    | zero => rfl
    | succ k ih =>
      rw [Function.iterate_succ_apply']
      exact (leapfrog_step_momentum _ dt).trans ih

/-- Witness for C1 at a concrete two-body simulation. -/
theorem momentum_conserved_witness :
    (twoBodySim.rk4_step 1).total_momentum = twoBodySim.total_momentum :=
  (momentum_conserved twoBodySim 1 (by decide)).1

@[simp] lemma rk4_step_settings (sim : Simulation) (dt : ℝ) :
    (sim.rk4_step dt).settings = sim.settings := by
  unfold Simulation.rk4_step
  split <;> rfl

@[simp] lemma rk4_step_time (sim : Simulation) (dt : ℝ) :
    (sim.rk4_step dt).time = sim.time := by
  unfold Simulation.rk4_step
  split <;> rfl

@[simp] lemma rk4_step_frames (sim : Simulation) (dt : ℝ) :
    (sim.rk4_step dt).frame_count = sim.frame_count := by
  unfold Simulation.rk4_step
  split <;> rfl

@[simp] lemma rk4_step_paused (sim : Simulation) (dt : ℝ) :
    (sim.rk4_step dt).paused = sim.paused := by
  unfold Simulation.rk4_step
  split <;> rfl

@[simp] lemma rk4_step_dt (sim : Simulation) (dt : ℝ) :
    (sim.rk4_step dt).current_dt = sim.current_dt := by
  unfold Simulation.rk4_step
  split <;> rfl

@[simp] lemma rk4_step_tolerance (sim : Simulation) (dt : ℝ) :
    (sim.rk4_step dt).error_tolerance = sim.error_tolerance := by
  unfold Simulation.rk4_step
  split <;> rfl

@[simp] lemma rk4_step_energy (sim : Simulation) (dt : ℝ) :
    (sim.rk4_step dt).energy_history = sim.energy_history := by
  unfold Simulation.rk4_step
  split <;> rfl

@[simp] lemma rk4_step_momentumh (sim : Simulation) (dt : ℝ) :
    (sim.rk4_step dt).momentum_history = sim.momentum_history := by
  unfold Simulation.rk4_step
  split <;> rfl

@[simp] lemma rk4_step_angularh (sim : Simulation) (dt : ℝ) :
    (sim.rk4_step dt).angular_momentum_history = sim.angular_momentum_history := by
  unfold Simulation.rk4_step
  split <;> rfl

@[simp] lemma rk4_step_events (sim : Simulation) (dt : ℝ) :
    (sim.rk4_step dt).collision_events = sim.collision_events := by
  unfold Simulation.rk4_step
  split <;> rfl

@[simp] lemma leapfrog_step_settings (sim : Simulation) (dt : ℝ) :
    (sim.leapfrog_step dt).settings = sim.settings := by
  unfold Simulation.leapfrog_step
  split <;> rfl

@[simp] lemma leapfrog_step_time (sim : Simulation) (dt : ℝ) :
    (sim.leapfrog_step dt).time = sim.time := by
  unfold Simulation.leapfrog_step
  split <;> rfl

@[simp] lemma leapfrog_step_frames (sim : Simulation) (dt : ℝ) :
    (sim.leapfrog_step dt).frame_count = sim.frame_count := by
  unfold Simulation.leapfrog_step
  split <;> rfl

@[simp] lemma leapfrog_step_paused (sim : Simulation) (dt : ℝ) :
    (sim.leapfrog_step dt).paused = sim.paused := by
  unfold Simulation.leapfrog_step
  split <;> rfl

@[simp] lemma leapfrog_step_dt (sim : Simulation) (dt : ℝ) :
    (sim.leapfrog_step dt).current_dt = sim.current_dt := by
  unfold Simulation.leapfrog_step
  split <;> rfl

@[simp] lemma leapfrog_step_tolerance (sim : Simulation) (dt : ℝ) :
    (sim.leapfrog_step dt).error_tolerance = sim.error_tolerance := by
  unfold Simulation.leapfrog_step
  split <;> rfl

@[simp] lemma leapfrog_step_energy (sim : Simulation) (dt : ℝ) :
    (sim.leapfrog_step dt).energy_history = sim.energy_history := by
  unfold Simulation.leapfrog_step
  split <;> rfl

@[simp] lemma leapfrog_step_momentumh (sim : Simulation) (dt : ℝ) :
    (sim.leapfrog_step dt).momentum_history = sim.momentum_history := by
  unfold Simulation.leapfrog_step
  split <;> rfl

@[simp] lemma leapfrog_step_angularh (sim : Simulation) (dt : ℝ) :
    (sim.leapfrog_step dt).angular_momentum_history = sim.angular_momentum_history := by
  unfold Simulation.leapfrog_step
  split <;> rfl

@[simp] lemma leapfrog_step_events (sim : Simulation) (dt : ℝ) :
    (sim.leapfrog_step dt).collision_events = sim.collision_events := by
  unfold Simulation.leapfrog_step
  split <;> rfl

@[simp] lemma com_settings (sim : Simulation) :
    sim.update_center_of_mass.settings = sim.settings := by
  unfold Simulation.update_center_of_mass
  split <;> rfl

@[simp] lemma com_bodies (sim : Simulation) :
    sim.update_center_of_mass.bodies = sim.bodies := by
  unfold Simulation.update_center_of_mass
  split <;> rfl

@[simp] lemma com_time (sim : Simulation) :
    sim.update_center_of_mass.time = sim.time := by
  unfold Simulation.update_center_of_mass
  split <;> rfl

@[simp] lemma com_frames (sim : Simulation) :
    sim.update_center_of_mass.frame_count = sim.frame_count := by
  unfold Simulation.update_center_of_mass
  split <;> rfl

@[simp] lemma com_paused (sim : Simulation) :
    sim.update_center_of_mass.paused = sim.paused := by
  unfold Simulation.update_center_of_mass
  split <;> rfl

@[simp] lemma com_dt (sim : Simulation) :
    sim.update_center_of_mass.current_dt = sim.current_dt := by
  unfold Simulation.update_center_of_mass
  split <;> rfl

@[simp] lemma com_tolerance (sim : Simulation) :
    sim.update_center_of_mass.error_tolerance = sim.error_tolerance := by
  unfold Simulation.update_center_of_mass
  split <;> rfl

@[simp] lemma com_energy (sim : Simulation) :
    sim.update_center_of_mass.energy_history = sim.energy_history := by
  unfold Simulation.update_center_of_mass
  split <;> rfl

@[simp] lemma com_momentumh (sim : Simulation) :
    sim.update_center_of_mass.momentum_history = sim.momentum_history := by
  unfold Simulation.update_center_of_mass
  split <;> rfl

@[simp] lemma com_angularh (sim : Simulation) :
    sim.update_center_of_mass.angular_momentum_history = sim.angular_momentum_history := by
  unfold Simulation.update_center_of_mass
  split <;> rfl

@[simp] lemma com_events (sim : Simulation) :
    sim.update_center_of_mass.collision_events = sim.collision_events := by
  unfold Simulation.update_center_of_mass
  split <;> rfl

@[simp] lemma atc_settings (sim : Simulation) :
    sim.adaptive_timestep_control.settings = sim.settings := by
  unfold Simulation.adaptive_timestep_control
  split
  · split <;> rfl
  · rfl

@[simp] lemma atc_bodies (sim : Simulation) :
    sim.adaptive_timestep_control.bodies = sim.bodies := by
  unfold Simulation.adaptive_timestep_control
  split
  · split <;> rfl
  · rfl

@[simp] lemma atc_time (sim : Simulation) :
    sim.adaptive_timestep_control.time = sim.time := by
  unfold Simulation.adaptive_timestep_control
  split
  · split <;> rfl
  · rfl

@[simp] lemma atc_frames (sim : Simulation) :
    sim.adaptive_timestep_control.frame_count = sim.frame_count := by
  unfold Simulation.adaptive_timestep_control
  split
  · split <;> rfl
  · rfl

@[simp] lemma atc_paused (sim : Simulation) :
    sim.adaptive_timestep_control.paused = sim.paused := by
  unfold Simulation.adaptive_timestep_control
  split
  · split <;> rfl
  · rfl

@[simp] lemma atc_tolerance (sim : Simulation) :
    sim.adaptive_timestep_control.error_tolerance = sim.error_tolerance := by
  unfold Simulation.adaptive_timestep_control
  split
  · split <;> rfl
  · rfl

@[simp] lemma atc_energy (sim : Simulation) :
    sim.adaptive_timestep_control.energy_history = sim.energy_history := by
  unfold Simulation.adaptive_timestep_control
  split
  · split <;> rfl
  · rfl

@[simp] lemma atc_momentumh (sim : Simulation) :
    sim.adaptive_timestep_control.momentum_history = sim.momentum_history := by
  unfold Simulation.adaptive_timestep_control
  split
  · split <;> rfl
  · rfl

@[simp] lemma atc_angularh (sim : Simulation) :
    sim.adaptive_timestep_control.angular_momentum_history = sim.angular_momentum_history := by
  unfold Simulation.adaptive_timestep_control
  split
  · split <;> rfl
  · rfl

@[simp] lemma atc_events (sim : Simulation) :
    sim.adaptive_timestep_control.collision_events = sim.collision_events := by
  unfold Simulation.adaptive_timestep_control
  split
  · split <;> rfl
  · rfl

@[simp] lemma ccq_settings (sim : Simulation) :
    sim.calculate_conserved_quantities.settings = sim.settings := by
  unfold Simulation.calculate_conserved_quantities
  split
  · rfl
  · dsimp only
    split <;> rfl

@[simp] lemma ccq_bodies (sim : Simulation) :
    sim.calculate_conserved_quantities.bodies = sim.bodies := by
  unfold Simulation.calculate_conserved_quantities
  split
  · rfl
  · dsimp only
    split <;> rfl

@[simp] lemma ccq_time (sim : Simulation) :
    sim.calculate_conserved_quantities.time = sim.time := by
  unfold Simulation.calculate_conserved_quantities
  split
  · rfl
  · dsimp only
    split <;> rfl

@[simp] lemma ccq_frames (sim : Simulation) :
    sim.calculate_conserved_quantities.frame_count = sim.frame_count := by
  unfold Simulation.calculate_conserved_quantities
  split
  · rfl
  · dsimp only
    split <;> rfl

@[simp] lemma ccq_paused (sim : Simulation) :
    sim.calculate_conserved_quantities.paused = sim.paused := by
  unfold Simulation.calculate_conserved_quantities
  split
  · rfl
  · dsimp only
    split <;> rfl

@[simp] lemma ccq_dt (sim : Simulation) :
    sim.calculate_conserved_quantities.current_dt = sim.current_dt := by
  unfold Simulation.calculate_conserved_quantities
  split
  · rfl
  · dsimp only
    split <;> rfl

@[simp] lemma ccq_tolerance (sim : Simulation) :
    sim.calculate_conserved_quantities.error_tolerance = sim.error_tolerance := by
  unfold Simulation.calculate_conserved_quantities
  split
  · rfl
  · dsimp only
    split <;> rfl

@[simp] lemma ccq_events (sim : Simulation) :
    sim.calculate_conserved_quantities.collision_events = sim.collision_events := by
  unfold Simulation.calculate_conserved_quantities
  split
  · rfl
  · dsimp only
    split <;> rfl

/-- C3 (amended): on every non-paused `step()`, the elapsed time advances
by the value `current_dt` holds after the adaptive-timestep controller has
run during that call (which is the post-step `current_dt`), and the step
counter increases by exactly 1. -/
theorem step_time_advance (sim : Simulation) (hp : sim.paused = false) :
    (sim.step).time = sim.time + (sim.step).current_dt ∧
    (sim.step).frame_count = sim.frame_count + 1 := by
  unfold Simulation.step
  rw [if_neg (by rw [hp]; exact Bool.false_ne_true)]
  constructor
  · simp [apply_ite Simulation.time, apply_ite Simulation.current_dt]
  · simp [apply_ite Simulation.frame_count]

/-- Witness for C3's amended statement at a concrete non-paused
simulation. -/
theorem step_time_advance_witness :
    (idleSim.step).time = idleSim.time + (idleSim.step).current_dt ∧
    (idleSim.step).frame_count = idleSim.frame_count + 1 :=
  step_time_advance idleSim rfl

lemma leapfrog_step_diag (sim : Simulation) (dt : ℝ) :
    (sim.leapfrog_step dt).bodies.map Body.force_x = sim.bodies.map Body.force_x ∧
    (sim.leapfrog_step dt).bodies.map Body.force_y = sim.bodies.map Body.force_y ∧
    (sim.leapfrog_step dt).bodies.map Body.acceleration_x =
      sim.bodies.map Body.acceleration_x ∧
    (sim.leapfrog_step dt).bodies.map Body.acceleration_y =
      sim.bodies.map Body.acceleration_y := by
  by_cases hlen : sim.bodies.length < 2
  · simp [Simulation.leapfrog_step, if_pos hlen]
  · refine ⟨?_, ?_, ?_, ?_⟩ <;>
    · simp only [Simulation.leapfrog_step, if_neg hlen, List.map_ofFn]
      conv_rhs => rw [← List.ofFn_get sim.bodies, List.map_ofFn]
      rfl

lemma foldl_max_zero (l : List Body) (hz : ∀ b ∈ l, b.acceleration_magnitude = 0) :
    ∀ acc : ℝ, 0 ≤ acc → l.foldl (fun a b => max a b.acceleration_magnitude) acc = acc := by
  induction l with
  | nil => intro acc _; rfl
  | cons hd tl ih =>
    intro acc hacc
    have hhd : hd.acceleration_magnitude = 0 := hz hd (by simp)
    simp only [List.foldl_cons, hhd]
    rw [max_eq_left hacc]
    exact ih (fun b hb => hz b (by simp [hb])) acc hacc

lemma max_acceleration_zero (sim : Simulation)
    (hz : ∀ b ∈ sim.bodies, b.acceleration_x = 0 ∧ b.acceleration_y = 0) :
    sim.max_acceleration = 0 := by
  unfold Simulation.max_acceleration
  refine foldl_max_zero sim.bodies ?_ 0 le_rfl
  intro b hb
  obtain ⟨hx, hy⟩ := hz b hb
  simp [Body.acceleration_magnitude, hx, hy]

lemma atc_eq_self_of_zero (sim : Simulation) (h : sim.max_acceleration = 0) :
    sim.adaptive_timestep_control = sim := by
  unfold Simulation.adaptive_timestep_control
  split
  · rw [if_neg (by rw [h]; exact lt_irrefl 0)]
  · rfl

lemma step_leapfrog_invariant (sim : Simulation)
    (hm : sim.settings.integration_method = "Leapfrog")
    (hz : ∀ b ∈ sim.bodies, b.acceleration_x = 0 ∧ b.acceleration_y = 0) :
    (sim.step).settings = sim.settings ∧
    (sim.step).current_dt = sim.current_dt ∧
    (∀ b ∈ (sim.step).bodies, b.acceleration_x = 0 ∧ b.acceleration_y = 0) := by
  by_cases hp : sim.paused = true
  · unfold Simulation.step
    rw [if_pos hp]
    exact ⟨rfl, rfl, hz⟩
  · have hdispatch : (if sim.settings.integration_method = "RK4" then
        sim.rk4_step sim.current_dt
      else if sim.settings.integration_method = "Leapfrog" then
        sim.leapfrog_step sim.current_dt
      else sim.rk4_step sim.current_dt) = sim.leapfrog_step sim.current_dt := by
      rw [if_neg (by rw [hm]; decide), if_pos hm]
    have hs1bodies : ∀ b ∈ (sim.leapfrog_step sim.current_dt).bodies,
        b.acceleration_x = 0 ∧ b.acceleration_y = 0 := by
      intro b hb
      have hmx := (leapfrog_step_diag sim sim.current_dt).2.2.1
      have hmy := (leapfrog_step_diag sim sim.current_dt).2.2.2
      constructor
      · have hmem : b.acceleration_x ∈
            (sim.leapfrog_step sim.current_dt).bodies.map Body.acceleration_x :=
          List.mem_map_of_mem _ hb
        rw [hmx] at hmem
        obtain ⟨b0, hb0, he⟩ := List.mem_map.mp hmem
        rw [← he]
        exact (hz b0 hb0).1
      · have hmem : b.acceleration_y ∈
            (sim.leapfrog_step sim.current_dt).bodies.map Body.acceleration_y :=
          List.mem_map_of_mem _ hb
        rw [hmy] at hmem
        obtain ⟨b0, hb0, he⟩ := List.mem_map.mp hmem
        rw [← he]
        exact (hz b0 hb0).2
    have hatc : ((sim.leapfrog_step sim.current_dt).update_center_of_mass).adaptive_timestep_control
        = (sim.leapfrog_step sim.current_dt).update_center_of_mass := by
      refine atc_eq_self_of_zero _ ?_
      unfold Simulation.max_acceleration
      rw [com_bodies]
      refine foldl_max_zero _ ?_ 0 le_rfl
      intro b hb
      obtain ⟨hx, hy⟩ := hs1bodies b hb
      simp [Body.acceleration_magnitude, hx, hy]
    unfold Simulation.step
    rw [if_neg hp]
    simp only [hdispatch, hatc]
    refine ⟨?_, ?_, ?_⟩
    · simp [apply_ite Simulation.settings]
    · simp [apply_ite Simulation.current_dt]
    · intro b hb
      simp only [apply_ite Simulation.bodies, ccq_bodies, ite_self, com_bodies] at hb
      exact hs1bodies b hb

/-- C10: `leapfrog_step` never writes the stored force/acceleration
fields of any body; consequently, in a Leapfrog-configured simulation
whose bodies carry their construction-time zero accelerations, every
number of `step()` calls leaves all stored accelerations at zero and
`current_dt` unchanged, even with the adaptive timestep enabled. -/
theorem leapfrog_diag_invariant (sim : Simulation)
    (hm : sim.settings.integration_method = "Leapfrog")
    (hz : ∀ b ∈ sim.bodies, b.acceleration_x = 0 ∧ b.acceleration_y = 0) :
    (∀ (s : Simulation) (dt : ℝ),
      (s.leapfrog_step dt).bodies.map Body.force_x = s.bodies.map Body.force_x ∧
      (s.leapfrog_step dt).bodies.map Body.force_y = s.bodies.map Body.force_y ∧
      (s.leapfrog_step dt).bodies.map Body.acceleration_x =
        s.bodies.map Body.acceleration_x ∧
      (s.leapfrog_step dt).bodies.map Body.acceleration_y =
        s.bodies.map Body.acceleration_y) ∧
    (∀ N : ℕ,
      (∀ b ∈ (Simulation.step^[N] sim).bodies,
        b.acceleration_x = 0 ∧ b.acceleration_y = 0) ∧
      (Simulation.step^[N] sim).current_dt = sim.current_dt) := by
  refine ⟨fun s dt => leapfrog_step_diag s dt, ?_⟩
  have main : ∀ N : ℕ, (Simulation.step^[N] sim).settings = sim.settings ∧
      (Simulation.step^[N] sim).current_dt = sim.current_dt ∧
      (∀ b ∈ (Simulation.step^[N] sim).bodies,
        b.acceleration_x = 0 ∧ b.acceleration_y = 0) := by
    intro N
    induction N with
    | zero => exact ⟨rfl, rfl, hz⟩
    | succ k ih =>
      obtain ⟨ihs, ihd, ihb⟩ := ih
      have h3 := step_leapfrog_invariant (Simulation.step^[k] sim)
        (by rw [ihs]; exact hm) ihb
      rw [Function.iterate_succ_apply']
      exact ⟨h3.1.trans ihs, h3.2.1.trans ihd, h3.2.2⟩
  intro N
  exact ⟨(main N).2.2, (main N).2.1⟩

/-- Witness for C10 at a concrete Leapfrog two-body simulation, five
steps in. -/
theorem leapfrog_diag_invariant_witness :
    (Simulation.step^[5] leapSim).current_dt = leapSim.current_dt :=
  ((leapfrog_diag_invariant leapSim rfl (by
    intro b hb
    simp only [leapSim, Simulation.make, List.mem_cons, List.not_mem_nil, or_false] at hb
    rcases hb with h | h <;> subst h <;> exact ⟨rfl, rfl⟩)).2 5).2

lemma sum_erase_fin2_zero (f : Fin 2 → ℝ) :
    ∑ j in Finset.univ.erase (0 : Fin 2), f j = f 1 := by
  rw [show Finset.univ.erase (0 : Fin 2) = {1} from by decide, Finset.sum_singleton]

lemma sum_erase_fin2_one (f : Fin 2 → ℝ) :
    ∑ j in Finset.univ.erase (1 : Fin 2), f j = f 0 := by
  rw [show Finset.univ.erase (1 : Fin 2) = {0} from by decide, Finset.sum_singleton]

lemma ofFn_two {α : Type} (f : Fin 2 → α) : List.ofFn f = [f 0, f 1] := by
  simp [List.ofFn_succ]

lemma rk4_diag_x (sim : Simulation) (dt : ℝ) (h : 2 ≤ sim.bodies.length) :
    (sim.rk4_step dt).bodies.map Body.acceleration_x =
      List.ofFn (fun i => (accel_sum sim.G sim.settings.softening_parameter
        (fun j => (sim.bodies.get j).mass)
        (fun j => (rk4_stage4 sim.G sim.settings.softening_parameter dt
          (fun k => sim.bodies.get k) j).x)
        (fun j => (rk4_stage4 sim.G sim.settings.softening_parameter dt
          (fun k => sim.bodies.get k) j).y) i).1) := by
  simp only [Simulation.rk4_step, if_neg (not_lt.mpr h), List.map_ofFn]
  rfl

lemma rk4_diag_y (sim : Simulation) (dt : ℝ) (h : 2 ≤ sim.bodies.length) :
    (sim.rk4_step dt).bodies.map Body.acceleration_y =
      List.ofFn (fun i => (accel_sum sim.G sim.settings.softening_parameter
        (fun j => (sim.bodies.get j).mass)
        (fun j => (rk4_stage4 sim.G sim.settings.softening_parameter dt
          (fun k => sim.bodies.get k) j).x)
        (fun j => (rk4_stage4 sim.G sim.settings.softening_parameter dt
          (fun k => sim.bodies.get k) j).y) i).2) := by
  simp only [Simulation.rk4_step, if_neg (not_lt.mpr h), List.map_ofFn]
  rfl

lemma rk4_diag_fx (sim : Simulation) (dt : ℝ) (h : 2 ≤ sim.bodies.length) :
    (sim.rk4_step dt).bodies.map Body.force_x =
      List.ofFn (fun i => (accel_sum sim.G sim.settings.softening_parameter
        (fun j => (sim.bodies.get j).mass)
        (fun j => (rk4_stage4 sim.G sim.settings.softening_parameter dt
          (fun k => sim.bodies.get k) j).x)
        (fun j => (rk4_stage4 sim.G sim.settings.softening_parameter dt
          (fun k => sim.bodies.get k) j).y) i).1 * (sim.bodies.get i).mass) := by
  simp only [Simulation.rk4_step, if_neg (not_lt.mpr h), List.map_ofFn]
  rfl

lemma rk4_diag_fy (sim : Simulation) (dt : ℝ) (h : 2 ≤ sim.bodies.length) :
    (sim.rk4_step dt).bodies.map Body.force_y =
      List.ofFn (fun i => (accel_sum sim.G sim.settings.softening_parameter
        (fun j => (sim.bodies.get j).mass)
        (fun j => (rk4_stage4 sim.G sim.settings.softening_parameter dt
          (fun k => sim.bodies.get k) j).x)
        (fun j => (rk4_stage4 sim.G sim.settings.softening_parameter dt
          (fun k => sim.bodies.get k) j).y) i).2 * (sim.bodies.get i).mass) := by
  simp only [Simulation.rk4_step, if_neg (not_lt.mpr h), List.map_ofFn]
  rfl

/-- C2 fails on the code: at a concrete two-body configuration (unit
masses at x = 0 and x = 4, at rest, softening 3, G = 125/4, dt = 2),
`rk4_step` leaves stored accelerations [0, 0] — the k4 evaluation, made
at stage-4 positions that coincide at x = 2 where the softened
r^2 = 9 > 0 keeps every division guarded — while the k1 evaluation at
the pre-step positions (softened r^2 = 25) gives [1, -1]; the two
disagree.  Machine floats reproduce this trace bit-for-bit: every
division is by a softened r^2 of 25 or 9, all positions, velocities and
the k1/k2 accelerations are exact dyadics, and the stored k4 components
vanish through an exactly-zero dx and dy. -/
theorem rk4_k1_recording_false :
    ((sepSim.rk4_step 2).bodies.map Body.acceleration_x = [0, 0] ∧
     @List.ofFn ℝ 2 (fun i => (@accel_sum 2 sepSim.G
       sepSim.settings.softening_parameter
       (fun j : Fin 2 => (sepSim.bodies.get j).mass)
       (fun j : Fin 2 => (sepSim.bodies.get j).x)
       (fun j : Fin 2 => (sepSim.bodies.get j).y) i).1) = [1, -1]) ∧
    (sepSim.rk4_step 2).bodies.map Body.acceleration_x ≠
      @List.ofFn ℝ 2 (fun i => (@accel_sum 2 sepSim.G
        sepSim.settings.softening_parameter
        (fun j : Fin 2 => (sepSim.bodies.get j).mass)
        (fun j : Fin 2 => (sepSim.bodies.get j).x)
        (fun j : Fin 2 => (sepSim.bodies.get j).y) i).1) := by
  have h25 : Real.sqrt 25 = 5 := by
    rw [show (25 : ℝ) = 5 ^ 2 from by norm_num, Real.sqrt_sq (by norm_num)]
  have h9 : Real.sqrt 9 = 3 := by
    rw [show (9 : ℝ) = 3 ^ 2 from by norm_num, Real.sqrt_sq (by norm_num)]
  have hL : (sepSim.rk4_step 2).bodies.map Body.acceleration_x = [0, 0] := by
    rw [rk4_diag_x sepSim 2 (by decide)]
    show @List.ofFn ℝ 2 (fun i => (@accel_sum 2 sepSim.G
        sepSim.settings.softening_parameter
        (fun j : Fin 2 => (sepSim.bodies.get j).mass)
        (fun j : Fin 2 => (@rk4_stage4 2 sepSim.G
          sepSim.settings.softening_parameter 2
          (fun k : Fin 2 => sepSim.bodies.get k) j).x)
        (fun j : Fin 2 => (@rk4_stage4 2 sepSim.G
          sepSim.settings.softening_parameter 2
          (fun k : Fin 2 => sepSim.bodies.get k) j).y) i).1) = [0, 0]
    rw [ofFn_two]
    simp only [accel_sum, sum_erase_fin2_zero, sum_erase_fin2_one, accel_term,
      rk4_stage4, get_derivatives_rk4, saxpy]
    norm_num [sepSim, Simulation.make, softSettings, defaultSettings,
      bodyD, bodyE, Body.make, h25, h9]
  have hR : @List.ofFn ℝ 2 (fun i => (@accel_sum 2 sepSim.G
      sepSim.settings.softening_parameter
      (fun j : Fin 2 => (sepSim.bodies.get j).mass)
      (fun j : Fin 2 => (sepSim.bodies.get j).x)
      (fun j : Fin 2 => (sepSim.bodies.get j).y) i).1) = [1, -1] := by
    rw [ofFn_two]
    simp only [accel_sum, sum_erase_fin2_zero, sum_erase_fin2_one, accel_term]
    norm_num [sepSim, Simulation.make, softSettings, defaultSettings,
      bodyD, bodyE, Body.make, h25]
  refine ⟨⟨hL, hR⟩, ?_⟩
  rw [hL, hR]
  intro hc
  injection hc with h1 _
  exact zero_ne_one h1

/-- C2 (amended): after `rk4_step` on at least 2 bodies, each body's
stored force and acceleration come from the k4 (final) derivative
evaluation, made at the stage state `state + dt * k3` — not from the k1
evaluation at the pre-step positions. -/
theorem rk4_records_last_stage (sim : Simulation) (dt : ℝ) (h : 2 ≤ sim.bodies.length) :
    (sim.rk4_step dt).bodies.map Body.acceleration_x =
      List.ofFn (fun i => (accel_sum sim.G sim.settings.softening_parameter
        (fun j => (sim.bodies.get j).mass)
        (fun j => (rk4_stage4 sim.G sim.settings.softening_parameter dt
          (fun k => sim.bodies.get k) j).x)
        (fun j => (rk4_stage4 sim.G sim.settings.softening_parameter dt
          (fun k => sim.bodies.get k) j).y) i).1) ∧
    (sim.rk4_step dt).bodies.map Body.acceleration_y =
      List.ofFn (fun i => (accel_sum sim.G sim.settings.softening_parameter
        (fun j => (sim.bodies.get j).mass)
        (fun j => (rk4_stage4 sim.G sim.settings.softening_parameter dt
          (fun k => sim.bodies.get k) j).x)
        (fun j => (rk4_stage4 sim.G sim.settings.softening_parameter dt
          (fun k => sim.bodies.get k) j).y) i).2) ∧
    (sim.rk4_step dt).bodies.map Body.force_x =
      List.ofFn (fun i => (accel_sum sim.G sim.settings.softening_parameter
        (fun j => (sim.bodies.get j).mass)
        (fun j => (rk4_stage4 sim.G sim.settings.softening_parameter dt
          (fun k => sim.bodies.get k) j).x)
        (fun j => (rk4_stage4 sim.G sim.settings.softening_parameter dt
          (fun k => sim.bodies.get k) j).y) i).1 * (sim.bodies.get i).mass) ∧
    (sim.rk4_step dt).bodies.map Body.force_y =
      List.ofFn (fun i => (accel_sum sim.G sim.settings.softening_parameter
        (fun j => (sim.bodies.get j).mass)
        (fun j => (rk4_stage4 sim.G sim.settings.softening_parameter dt
          (fun k => sim.bodies.get k) j).x)
        (fun j => (rk4_stage4 sim.G sim.settings.softening_parameter dt
          (fun k => sim.bodies.get k) j).y) i).2 * (sim.bodies.get i).mass) :=
  ⟨rk4_diag_x sim dt h, rk4_diag_y sim dt h, rk4_diag_fx sim dt h, rk4_diag_fy sim dt h⟩

/-- Witness for C2's amended statement at the concrete two-body
configuration with positive softening. -/
theorem rk4_records_last_stage_witness :
    (sepSim.rk4_step 2).bodies.map Body.acceleration_x =
      List.ofFn (fun i => (accel_sum sepSim.G
        sepSim.settings.softening_parameter
        (fun j => (sepSim.bodies.get j).mass)
        (fun j => (rk4_stage4 sepSim.G sepSim.settings.softening_parameter 2
          (fun k => sepSim.bodies.get k) j).x)
        (fun j => (rk4_stage4 sepSim.G sepSim.settings.softening_parameter 2
          (fun k => sepSim.bodies.get k) j).y) i).1) :=
  (rk4_records_last_stage sepSim 2 (by decide)).1

lemma solo_atc :
    (soloSim.update_center_of_mass).adaptive_timestep_control
      = { soloSim.update_center_of_mass with current_dt := 0.0001 } := by
  have hmax : (soloSim.update_center_of_mass).max_acceleration = 100000000 := by
    unfold Simulation.max_acceleration
    rw [com_bodies]
    show max 0 (Body.acceleration_magnitude soloBody) = 100000000
    rw [show Body.acceleration_magnitude soloBody
        = Real.sqrt ((100000000 : ℝ) ^ 2 + 0 ^ 2) from rfl]
    rw [show ((100000000 : ℝ) ^ 2 + 0 ^ 2) = (100000000 : ℝ) ^ 2 from by norm_num,
      Real.sqrt_sq (by norm_num)]
    exact max_eq_right (by norm_num)
  unfold Simulation.adaptive_timestep_control
  rw [if_pos (by decide : (soloSim.update_center_of_mass).settings.adaptive_timestep = true)]
  rw [if_pos (show 0 < (soloSim.update_center_of_mass).max_acceleration from by
    rw [hmax]; norm_num)]
  dsimp only
  rw [hmax, show (soloSim.update_center_of_mass).error_tolerance = 1e-8 from rfl]
  rw [show ((1e-8 : ℝ) / 100000000) = (1e-8 : ℝ) ^ 2 from by norm_num,
    Real.sqrt_sq (by norm_num)]
  rw [show (soloSim.update_center_of_mass).settings.min_dt = 0.0001 from rfl,
    show (soloSim.update_center_of_mass).settings.max_dt = 0.002 from rfl]
  rw [max_eq_right (by norm_num), min_eq_left (by norm_num)]

/-- C3 fails on the code: in a one-body simulation whose stored
acceleration is huge, the adaptive controller shrinks `current_dt` to
`min_dt = 0.0001` after the integrator ran, and `step()` then advances
elapsed time by that new value, not by the `current_dt = 0.0005` that was
passed to the integrator at the start of the call. -/
theorem step_time_not_integrator_dt :
    soloSim.current_dt = 0.0005 ∧
    (soloSim.step).time = soloSim.time + 0.0001 ∧
    (soloSim.step).time - soloSim.time ≠ soloSim.current_dt := by
  have htime : (soloSim.step).time = soloSim.time + 0.0001 := by
    unfold Simulation.step
    rw [if_neg (by decide : ¬soloSim.paused = true)]
    dsimp only
    rw [if_pos (by decide : soloSim.settings.integration_method = "RK4")]
    rw [show soloSim.rk4_step soloSim.current_dt = soloSim from by
      unfold Simulation.rk4_step; rw [if_pos (by decide)]]
    rw [solo_atc]
    rfl
  refine ⟨rfl, htime, ?_⟩
  rw [htime]
  rw [show soloSim.time + 0.0001 - soloSim.time = (0.0001 : ℝ) from by ring]
  rw [show soloSim.current_dt = (0.0005 : ℝ) from rfl]
  norm_num

lemma step_events (sim : Simulation) :
    (sim.step).collision_events = sim.collision_events := by
  unfold Simulation.step
  split
  · rfl
  · simp [apply_ite Simulation.collision_events]

/-- C8 fails on the code: `step()` never touches the collision-event log
and nothing ever caps it, so a non-paused simulation whose log already
holds 1001 entries still exceeds the 1000-entry bound after `step()`. -/
theorem collision_log_uncapped :
    1000 < (overfullLogSim.step).collision_events.length := by
  rw [step_events]
  rw [show overfullLogSim.collision_events
      = List.replicate 1001 ((0 : ℝ), "A", "B") from rfl]
  rw [List.length_replicate]
  norm_num

lemma ccq_history_bounds (sim : Simulation)
    (he : sim.energy_history.length ≤ 1000)
    (hm : sim.momentum_history.length = sim.energy_history.length)
    (ha : sim.angular_momentum_history.length = sim.energy_history.length) :
    (sim.calculate_conserved_quantities).energy_history.length ≤ 1000 ∧
    (sim.calculate_conserved_quantities).momentum_history.length ≤ 1000 ∧
    (sim.calculate_conserved_quantities).angular_momentum_history.length ≤ 1000 := by
  unfold Simulation.calculate_conserved_quantities
  split
  · exact ⟨he, by rw [hm]; exact he, by rw [ha]; exact he⟩
  · dsimp only
    split
    · refine ⟨?_, ?_, ?_⟩ <;>
        simp only [List.length_tail, List.length_append, List.length_singleton] <;>
        omega
    · next hle =>
      simp only [List.length_append, List.length_singleton] at hle
      refine ⟨?_, ?_, ?_⟩ <;>
        simp only [List.length_append, List.length_singleton] <;>
        omega

/-- C8 (amended): provided the three sample histories enter `step()` with
equal lengths of at most 1000 (as holds along any run), they again hold
at most 1000 entries afterwards (a sample past the cap evicts the oldest
entry of each); the collision-event log is left untouched by `step()` —
the code never caps it. -/
theorem step_history_bounds (sim : Simulation)
    (he : sim.energy_history.length ≤ 1000)
    (hm : sim.momentum_history.length = sim.energy_history.length)
    (ha : sim.angular_momentum_history.length = sim.energy_history.length) :
    (sim.step).energy_history.length ≤ 1000 ∧
    (sim.step).momentum_history.length ≤ 1000 ∧
    (sim.step).angular_momentum_history.length ≤ 1000 ∧
    (sim.step).collision_events = sim.collision_events := by
  refine ⟨?_, ?_, ?_, step_events sim⟩
  · unfold Simulation.step
    split
    · exact he
    · dsimp only
      split <;> split <;> try split
      all_goals
        first
          | exact (ccq_history_bounds _ (by simpa using he) (by simpa using hm)
              (by simpa using ha)).1
          | simpa using he
  · unfold Simulation.step
    split
    · rw [hm]; exact he
    · dsimp only
      split <;> split <;> try split
      all_goals
        first
          | exact (ccq_history_bounds _ (by simpa using he) (by simpa using hm)
              (by simpa using ha)).2.1
          | simpa [hm] using he
  · unfold Simulation.step
    split
    · rw [ha]; exact he
    · dsimp only
      split <;> split <;> try split
      all_goals
        first
          | exact (ccq_history_bounds _ (by simpa using he) (by simpa using hm)
              (by simpa using ha)).2.2
          | simpa [ha] using he

/-- Witness for C8's amended statement at a concrete simulation with
empty histories. -/
theorem step_history_bounds_witness :
    (idleSim.step).energy_history.length ≤ 1000 ∧
    (idleSim.step).momentum_history.length ≤ 1000 ∧
    (idleSim.step).angular_momentum_history.length ≤ 1000 ∧
    (idleSim.step).collision_events = idleSim.collision_events :=
  step_history_bounds idleSim (by decide) rfl rfl

lemma with_method_frames (sim : Simulation) (s : String) :
    (sim.with_method s).frame_count = sim.frame_count := rfl

lemma with_method_dt (sim : Simulation) (s : String) :
    (sim.with_method s).current_dt = sim.current_dt := rfl

lemma with_method_integration (sim : Simulation) (s : String) :
    (sim.with_method s).settings.integration_method = s := rfl

lemma with_method_with_method (sim : Simulation) (a b : String) :
    (sim.with_method a).with_method b = sim.with_method b := rfl

lemma with_method_own (sim : Simulation) :
    sim.with_method sim.settings.integration_method = sim := rfl

lemma rk4_step_with_method (sim : Simulation) (s : String) (dt : ℝ) :
    (sim.with_method s).rk4_step dt = (sim.rk4_step dt).with_method s := by
  unfold Simulation.with_method Simulation.rk4_step
  dsimp only
  split <;> rfl

lemma com_with_method (sim : Simulation) (s : String) :
    (sim.with_method s).update_center_of_mass
      = sim.update_center_of_mass.with_method s := by
  unfold Simulation.with_method Simulation.update_center_of_mass
  dsimp only
  split <;> rfl

lemma atc_with_method (sim : Simulation) (s : String) :
    (sim.with_method s).adaptive_timestep_control
      = sim.adaptive_timestep_control.with_method s := by
  unfold Simulation.with_method Simulation.adaptive_timestep_control
    Simulation.max_acceleration
  dsimp only
  split
  · split <;> rfl
  · rfl

lemma ccq_with_method (sim : Simulation) (s : String) :
    (sim.with_method s).calculate_conserved_quantities
      = sim.calculate_conserved_quantities.with_method s := by
  unfold Simulation.with_method Simulation.calculate_conserved_quantities
  dsimp only
  split
  · rfl
  · split <;> rfl

lemma step_settings (sim : Simulation) : (sim.step).settings = sim.settings := by
  unfold Simulation.step
  split
  · rfl
  · simp [apply_ite Simulation.settings]

/-- C9: with an unrecognized integration-method string configured,
`step()` runs the RK4 fallback and never fails: it produces exactly the
state that `step()` produces from the same starting state with the
method set to "RK4" (with the configured method string itself carried
through unchanged). -/
theorem step_unknown_method_rk4 (sim : Simulation)
    (h1 : sim.settings.integration_method ≠ "RK4")
    (h2 : sim.settings.integration_method ≠ "Leapfrog") :
    sim.step = ((sim.with_method "RK4").step).with_method
      sim.settings.integration_method := by
  have key : (sim.with_method "RK4").step = (sim.step).with_method "RK4" := by
    by_cases hp : sim.paused = true
    · unfold Simulation.step
      rw [if_pos (show (sim.with_method "RK4").paused = true from hp), if_pos hp]
    · unfold Simulation.step
      rw [if_neg (show ¬(sim.with_method "RK4").paused = true from hp), if_neg hp]
      dsimp only
      rw [with_method_integration]
      rw [if_pos (rfl : ("RK4" : String) = "RK4"), if_neg h1, if_neg h2]
      rw [with_method_dt]
      rw [rk4_step_with_method, com_with_method, atc_with_method]
      rw [with_method_frames]
      rw [ccq_with_method]
      rw [← apply_ite (fun t : Simulation => t.with_method "RK4")]
      rfl
  calc sim.step
      = (sim.step).with_method (sim.step).settings.integration_method :=
        (with_method_own _).symm
    _ = (sim.step).with_method sim.settings.integration_method := by rw [step_settings]
    _ = ((sim.step).with_method "RK4").with_method sim.settings.integration_method :=
        (with_method_with_method _ _ _).symm
    _ = ((sim.with_method "RK4").step).with_method sim.settings.integration_method := by
        rw [key]

/-- Witness for C9 at a concrete simulation configured with the method
string "Euler". -/
theorem step_unknown_method_rk4_witness :
    eulerSim.step = ((eulerSim.with_method "RK4").step).with_method
      eulerSim.settings.integration_method :=
  step_unknown_method_rk4 eulerSim (by decide) (by decide)

end ThreeBody
